/-
Verification of the order-lifecycle behavior of the A-Tu-Puerta backend.

The repository holds four revisions of the same Express backend.  The
pedido (order) handlers are embedded here as pure state-transition
functions over an abstract keyed store (id -> row), mirroring each SQL
statement or in-memory assignment:

  * V1 : the in-memory revision (part_000 / part_002 first section),
         where POST /api/pedidos writes the request body into a plain
         object, overwriting any existing entry.
  * V2 : the first SQLite revision (part_001): INSERT with a PRIMARY
         KEY on id (a duplicate insert fails and leaves the table
         unchanged), initial estado 'en proceso', and unconditional
         UPDATEs for asignar / entregado.
  * V3 : the SQLite+Supabase revision (part_002 third section):
         initial estado 'disponible', unconditional asignar,
         actualizar-estado restricted to a fixed list of estado
         strings, entregado that archives to Supabase before updating,
         and verificar-ubicacion which compares a planar degree
         distance against MARGEN_ERROR = 0.00027.
  * SB : backend-server.js (the Supabase revision): asignar sets
         estado 'en proceso' plus the mensajero fields, en-camino and
         entregado update estado unconditionally, and
         verificar-ubicacion computes haversine distances
         (calcularDistancia) but performs no transition.

JavaScript numbers are modelled as real numbers; SQL NULL as Option;
a db error response as a Bool / dedicated response type.  The Supabase
archival call in V3's entregado is an external effect whose outcome is
passed in as a Bool parameter.
-/
import Mathlib

/-- A latitude/longitude pair in decimal degrees ({lat, lng} in the JSON bodies). -/
structure Ubicacion where
  lat : ℝ
  lng : ℝ

/-- A row of the `pedidos` table of the SQLite revisions (part_001 / part_002
third section).  `productos`, `ubicacionVenta`, `ubicacionEntrega` are stored
as JSON text; the coordinates are kept structured here since
verificar-ubicacion reads them back. -/
structure Pedido where
  id : String
  productos : String
  ubicacionVenta : Ubicacion
  ubicacionEntrega : Ubicacion
  estado : String
  mensajeroId : Option String
  distanciaCarreteraKm : Option ℝ
  precioDelivery : Option ℝ
  geometria_ruta : Option String
  created_at : Nat

/-- The pedidos table, keyed by the primary key `id`. -/
abbrev Store := String → Option Pedido

/-- Response of V3's verificar-ubicacion and SB's verificar-ubicacion:
404 when the pedido does not exist, otherwise the (possibly updated)
estado together with the two computed distances. -/
inductive VUResp where
  | notFound
  | ok (estado : String) (distanciaVenta distanciaEntrega : ℝ)

namespace V1

/-- part_002 lines 14-18 (and part_000 lines 81-96): `pedidos[pedido.id] = pedido`.
The request body is stored as given, replacing any existing entry; the
endpoint always answers 201 with the id. -/
def crearPedido (st : Store) (p : Pedido) : Store × String :=
  ((fun i => if i = p.id then some p else st i), p.id)

end V1

namespace V2

/-- part_001 lines 40-63: INSERT INTO pedidos (id, productos, ubicacionVenta,
ubicacionEntrega, estado, distanciaCarreteraKm, precioDelivery) with estado
'en proceso'.  `id` is the PRIMARY KEY, so an insert with an existing id
fails (the handler answers 500 and the table is unchanged); mensajeroId is
not in the column list and stays NULL; created_at takes the current time. -/
def crearPedido (st : Store) (p : Pedido) (now : Nat) : Store × Bool :=
  if (st p.id).isSome then (st, false)
  else ((fun i => if i = p.id then
          some { p with estado := "en proceso", mensajeroId := none,
                        geometria_ruta := none, created_at := now }
        else st i), true)

/-- part_001 lines 102-116: UPDATE pedidos SET estado = 'entregado' WHERE id = ?,
with no check of the current estado; the handler answers success whether or
not a row matched. -/
def entregado (st : Store) (pedidoId : String) : Store × Bool :=
  ((fun i => if i = pedidoId then (st i).map (fun p => { p with estado := "entregado" })
   else st i), true)

end V2

namespace V3

/-- part_002 lines 496-526: INSERT INTO pedidos (..., estado, ...) VALUES
(..., 'disponible', ...) with geometria_ruta from the body; `id` is the
PRIMARY KEY so a duplicate insert fails and leaves the table unchanged;
mensajeroId is not inserted and stays NULL. -/
def crearPedido (st : Store) (p : Pedido) (now : Nat) : Store × Bool :=
  if (st p.id).isSome then (st, false)
  else ((fun i => if i = p.id then
          some { p with estado := "disponible", mensajeroId := none, created_at := now }
        else st i), true)

/-- part_002 lines 554-573: UPDATE pedidos SET estado = 'asignado',
mensajeroId = ? WHERE id = ?.  There is no check of the current estado and
the handler answers success even when no row matched. -/
def asignar (st : Store) (pedidoId mensajeroId : String) : Store × Bool :=
  ((fun i => if i = pedidoId then
      (st i).map (fun p => { p with estado := "asignado", mensajeroId := some mensajeroId })
    else st i), true)

/-- part_002 line 581: the list of estado values actualizar-estado accepts. -/
def estadosPermitidos : List String :=
  ["disponible", "asignado", "en proceso", "en camino", "entregado"]

/-- part_002 lines 576-602: after checking membership in estadosPermitidos,
UPDATE pedidos SET estado = ? WHERE id = ?, with no constraint relating the
new estado to the current one. -/
def actualizarEstado (st : Store) (pedidoId estado : String) : Store × Bool :=
  if estado ∈ estadosPermitidos then
    ((fun i => if i = pedidoId then (st i).map (fun p => { p with estado := estado })
     else st i), true)
  else (st, false)

/-- Outcome of V3's entregado endpoint: 404, a 500 caused by the Supabase
archival insert failing, or success. -/
inductive EntregadoResp where
  | notFound
  | archivalError
  | ok
deriving DecidableEq

/-- part_002 lines 605-652: fetch the pedido (404 if absent), insert it into
the Supabase table pedidos_entregados, and only if that insert succeeded run
UPDATE pedidos SET estado = 'entregado' WHERE id = ?.  A failing archival
insert throws, so the local UPDATE is never reached and the handler answers
500.  The archival outcome is the `archivalOk` parameter. -/
def entregado (st : Store) (pedidoId : String) (archivalOk : Bool) : Store × EntregadoResp :=
  match st pedidoId with
  | none => (st, EntregadoResp.notFound)
  | some _ =>
    if archivalOk then
      ((fun i => if i = pedidoId then (st i).map (fun p => { p with estado := "entregado" })
       else st i), EntregadoResp.ok)
    else (st, EntregadoResp.archivalError)

/-- part_002 line 658: MARGEN_ERROR = 0.00027, a threshold in degrees. -/
noncomputable def MARGEN_ERROR : ℝ := 0.00027

/-- part_002 lines 677-686: Math.sqrt(Math.pow(lat - p.lat, 2) +
Math.pow(lng - p.lng, 2)) - a planar Pythagorean distance on raw degrees. -/
noncomputable def distanciaGrados (lat lng plat plng : ℝ) : ℝ :=
  Real.sqrt ((lat - plat) ^ 2 + (lng - plng) ^ 2)

open Classical in
/-- part_002 lines 655-718: fetch the pedido (404 if absent), compute the two
planar degree distances, set nuevoEstado = 'en camino' when distanciaVenta <=
MARGEN_ERROR and estado === 'en proceso', else 'entregado' when
distanciaEntrega <= MARGEN_ERROR and estado === 'en camino', else null;
update the row when nuevoEstado is non-null; answer with
nuevoEstado || pedido.estado and both distances. -/
noncomputable def verificarUbicacion (st : Store) (pedidoId : String) (lat lng : ℝ) :
    Store × VUResp :=
  match st pedidoId with
  | none => (st, VUResp.notFound)
  | some p =>
    let distanciaVenta := distanciaGrados lat lng p.ubicacionVenta.lat p.ubicacionVenta.lng
    let distanciaEntrega := distanciaGrados lat lng p.ubicacionEntrega.lat p.ubicacionEntrega.lng
    if distanciaVenta ≤ MARGEN_ERROR ∧ p.estado = "en proceso" then
      ((fun i => if i = pedidoId then some { p with estado := "en camino" } else st i),
       VUResp.ok "en camino" distanciaVenta distanciaEntrega)
    else if distanciaEntrega ≤ MARGEN_ERROR ∧ p.estado = "en camino" then
      ((fun i => if i = pedidoId then some { p with estado := "entregado" } else st i),
       VUResp.ok "entregado" distanciaVenta distanciaEntrega)
    else (st, VUResp.ok p.estado distanciaVenta distanciaEntrega)

end V3

/-- A row of the Supabase `pedidos` table used by backend-server.js, with the
columns the embedded handlers read or write. -/
structure SBPedido where
  id : String
  productos : String
  ubicacion_venta : Ubicacion
  ubicacion_entrega : Ubicacion
  estado : String
  mensajero_id : Option String
  mensajero_nombre : Option String
  mensajero_telefono : Option String
  distanciaCarreteraKm : Option ℝ
  precioDelivery : Option ℝ
  created_at : Nat

/-- The Supabase pedidos table, keyed by id. -/
abbrev SBStore := String → Option SBPedido

namespace SB

/-- backend-server.js lines 533-570: update({estado: 'en proceso',
mensajero_id, mensajero_nombre, mensajero_telefono}).eq('id', pedidoId),
unconditionally; 404 only when no row matched, otherwise the updated row is
returned. -/
def asignar (st : SBStore) (pedidoId mensajeroId mensajeroNombre mensajeroTelefono : String) :
    SBStore × Option SBPedido :=
  match st pedidoId with
  | none => (st, none)
  | some p =>
    let updated := { p with estado := "en proceso", mensajero_id := some mensajeroId,
                            mensajero_nombre := some mensajeroNombre,
                            mensajero_telefono := some mensajeroTelefono }
    ((fun i => if i = pedidoId then some updated else st i), some updated)

/-- backend-server.js lines 631-650: update({estado: 'en camino'}).eq('id',
pedidoId), with no check of the current estado; success even when no row
matched. -/
def enCamino (st : SBStore) (pedidoId : String) : SBStore × Bool :=
  ((fun i => if i = pedidoId then (st i).map (fun p => { p with estado := "en camino" })
   else st i), true)

/-- backend-server.js lines 653-688: fetch the pedido (404 if absent), then
update({estado: 'entregado'}).eq('id', pedidoId); no archival write is
attached in this revision. -/
def entregado (st : SBStore) (pedidoId : String) : SBStore × Bool :=
  match st pedidoId with
  | none => (st, false)
  | some _ =>
    ((fun i => if i = pedidoId then (st i).map (fun p => { p with estado := "entregado" })
     else st i), true)

open Classical in
/-- JavaScript Math.atan2(y, x): arctan(y/x) corrected by quadrant, with the
conventional values on the axes. -/
noncomputable def atan2 (y x : ℝ) : ℝ :=
  if 0 < x then Real.arctan (y / x)
  else if x < 0 then
    (if 0 ≤ y then Real.arctan (y / x) + Real.pi else Real.arctan (y / x) - Real.pi)
  else
    (if 0 < y then Real.pi / 2 else if y < 0 then -(Real.pi / 2) else 0)

/-- The intermediate value `a` of calcularDistancia (backend-server.js lines
594-601): sin(dPhi/2)*sin(dPhi/2) + cos(phi1)*cos(phi2)*sin(dLam/2)*sin(dLam/2)
with the angles converted from degrees to radians. -/
noncomputable def haversineA (lat1 lon1 lat2 lon2 : ℝ) : ℝ :=
  Real.sin ((lat2 - lat1) * Real.pi / 180 / 2) * Real.sin ((lat2 - lat1) * Real.pi / 180 / 2) +
    Real.cos (lat1 * Real.pi / 180) * Real.cos (lat2 * Real.pi / 180) *
      Real.sin ((lon2 - lon1) * Real.pi / 180 / 2) * Real.sin ((lon2 - lon1) * Real.pi / 180 / 2)

/-- backend-server.js lines 592-605: the haversine distance in meters on a
sphere of radius R = 6371e3: R * (2 * atan2(sqrt(a), sqrt(1 - a))). -/
noncomputable def calcularDistancia (lat1 lon1 lat2 lon2 : ℝ) : ℝ :=
  6371000 * (2 * atan2 (Real.sqrt (haversineA lat1 lon1 lat2 lon2))
    (Real.sqrt (1 - haversineA lat1 lon1 lat2 lon2)))

open Classical in
/-- backend-server.js lines 573-628: fetch the pedido (404 if absent), compute
both haversine distances with calcularDistancia, and answer with the CURRENT
estado and the distances.  MARGEN_METROS = 30 is declared but never used: no
transition is performed. -/
noncomputable def verificarUbicacion (st : SBStore) (pedidoId : String) (lat lng : ℝ) :
    SBStore × VUResp :=
  match st pedidoId with
  | none => (st, VUResp.notFound)
  | some p =>
    (st, VUResp.ok p.estado
      (calcularDistancia lat lng p.ubicacion_venta.lat p.ubicacion_venta.lng)
      (calcularDistancia lat lng p.ubicacion_entrega.lat p.ubicacion_entrega.lng))

end SB

/-- A delivered pedido used to exercise actualizar-estado. -/
def pedDelivered : Pedido :=
  { id := "p1", productos := "prods", ubicacionVenta := { lat := 23.1136, lng := -82.3666 },
    ubicacionEntrega := { lat := 23.12, lng := -82.37 }, estado := "entregado",
    mensajeroId := some "m0", distanciaCarreteraKm := none, precioDelivery := none,
    geometria_ruta := none, created_at := 0 }

/-- A store holding only pedDelivered under its id. -/
def stDelivered : Store := fun i => if i = "p1" then some pedDelivered else none

/-- A pedido that a courier has claimed (estado 'asignado'), with the pickup
point at (10, 20). -/
def pedAsignado : Pedido :=
  { id := "p2", productos := "prods", ubicacionVenta := { lat := 10, lng := 20 },
    ubicacionEntrega := { lat := 11, lng := 21 }, estado := "asignado",
    mensajeroId := some "m1", distanciaCarreteraKm := none, precioDelivery := none,
    geometria_ruta := none, created_at := 0 }

/-- A store holding only pedAsignado under its id. -/
def stAsignado : Store := fun i => if i = "p2" then some pedAsignado else none

/-- A pedido currently in estado 'en proceso', with the pickup point at
(10, 20), used to trigger the automatic transition of verificar-ubicacion. -/
def pedEnProceso : Pedido :=
  { id := "p3", productos := "prods", ubicacionVenta := { lat := 10, lng := 20 },
    ubicacionEntrega := { lat := 11, lng := 21 }, estado := "en proceso",
    mensajeroId := some "m1", distanciaCarreteraKm := none, precioDelivery := none,
    geometria_ruta := none, created_at := 0 }

/-- A store holding only pedEnProceso under its id. -/
def stEnProceso : Store := fun i => if i = "p3" then some pedEnProceso else none

/-- A pedido whose courier is on the way (estado 'en camino'). -/
def pedEnCamino : Pedido :=
  { id := "p6", productos := "prods", ubicacionVenta := { lat := 10, lng := 20 },
    ubicacionEntrega := { lat := 11, lng := 21 }, estado := "en camino",
    mensajeroId := some "m1", distanciaCarreteraKm := none, precioDelivery := none,
    geometria_ruta := none, created_at := 0 }

/-- A store holding only pedEnCamino under its id. -/
def stEnCamino : Store := fun i => if i = "p6" then some pedEnCamino else none

/-- A pedido still available for claiming. -/
def pedDisponible : Pedido :=
  { id := "p7", productos := "prods", ubicacionVenta := { lat := 10, lng := 20 },
    ubicacionEntrega := { lat := 11, lng := 21 }, estado := "disponible",
    mensajeroId := none, distanciaCarreteraKm := none, precioDelivery := none,
    geometria_ruta := none, created_at := 0 }

/-- A store holding only pedDisponible under its id. -/
def stDisponible : Store := fun i => if i = "p7" then some pedDisponible else none

/-- A pedido body submitted to createOrder, whose id collides with
pedDelivered. -/
def pedBodyNuevo : Pedido :=
  { id := "p1", productos := "new-prods", ubicacionVenta := { lat := 1, lng := 2 },
    ubicacionEntrega := { lat := 3, lng := 4 }, estado := "x",
    mensajeroId := none, distanciaCarreteraKm := none, precioDelivery := none,
    geometria_ruta := none, created_at := 0 }

/-- A fresh pedido body with an unused id. -/
def pedBodyFresco : Pedido :=
  { id := "p9", productos := "prods", ubicacionVenta := { lat := 1, lng := 2 },
    ubicacionEntrega := { lat := 3, lng := 4 }, estado := "x",
    mensajeroId := none, distanciaCarreteraKm := none, precioDelivery := none,
    geometria_ruta := none, created_at := 0 }

/-- A Supabase-revision pedido in estado 'asignado' for the frame checks. -/
def sbPed : SBPedido :=
  { id := "q1", productos := "prods", ubicacion_venta := { lat := 10, lng := 20 },
    ubicacion_entrega := { lat := 11, lng := 21 }, estado := "asignado",
    mensajero_id := some "m1", mensajero_nombre := some "Ana", mensajero_telefono := some "555",
    distanciaCarreteraKm := some 5, precioDelivery := some 100, created_at := 0 }

/-- A store holding only sbPed under its id. -/
def sbSt : SBStore := fun i => if i = "q1" then some sbPed else none

/-- Fields of a V3 pedido row that the lifecycle transitions must not touch. -/
def framePedido (p q : Pedido) : Prop :=
  q.id = p.id ∧ q.productos = p.productos ∧ q.ubicacionVenta = p.ubicacionVenta ∧
    q.ubicacionEntrega = p.ubicacionEntrega ∧ q.distanciaCarreteraKm = p.distanciaCarreteraKm ∧
    q.precioDelivery = p.precioDelivery ∧ q.created_at = p.created_at

/-- Fields of a Supabase pedido row that the lifecycle transitions must not
touch (the mensajero_* columns are courier fields and may change). -/
def frameSBPedido (p q : SBPedido) : Prop :=
  q.id = p.id ∧ q.productos = p.productos ∧ q.ubicacion_venta = p.ubicacion_venta ∧
    q.ubicacion_entrega = p.ubicacion_entrega ∧ q.distanciaCarreteraKm = p.distanciaCarreteraKm ∧
    q.precioDelivery = p.precioDelivery ∧ q.created_at = p.created_at

theorem verificarUbicacion_venta (st : Store) (pid : String) (lat lng : ℝ) (p : Pedido)
    (hp : st pid = some p)
    (h1 : V3.distanciaGrados lat lng p.ubicacionVenta.lat p.ubicacionVenta.lng ≤ V3.MARGEN_ERROR ∧
      p.estado = "en proceso") :
    V3.verificarUbicacion st pid lat lng =
      ((fun i => if i = pid then some { p with estado := "en camino" } else st i),
        VUResp.ok "en camino"
          (V3.distanciaGrados lat lng p.ubicacionVenta.lat p.ubicacionVenta.lng)
          (V3.distanciaGrados lat lng p.ubicacionEntrega.lat p.ubicacionEntrega.lng)) := by
  unfold V3.verificarUbicacion
  rw [hp]
  simp only [if_pos h1]

theorem verificarUbicacion_entrega (st : Store) (pid : String) (lat lng : ℝ) (p : Pedido)
    (hp : st pid = some p)
    (h1 : ¬(V3.distanciaGrados lat lng p.ubicacionVenta.lat p.ubicacionVenta.lng ≤ V3.MARGEN_ERROR ∧
      p.estado = "en proceso"))
    (h2 : V3.distanciaGrados lat lng p.ubicacionEntrega.lat p.ubicacionEntrega.lng ≤ V3.MARGEN_ERROR ∧
      p.estado = "en camino") :
    V3.verificarUbicacion st pid lat lng =
      ((fun i => if i = pid then some { p with estado := "entregado" } else st i),
        VUResp.ok "entregado"
          (V3.distanciaGrados lat lng p.ubicacionVenta.lat p.ubicacionVenta.lng)
          (V3.distanciaGrados lat lng p.ubicacionEntrega.lat p.ubicacionEntrega.lng)) := by
  unfold V3.verificarUbicacion
  rw [hp]
  simp only [if_neg h1, if_pos h2]

theorem verificarUbicacion_sinCambio (st : Store) (pid : String) (lat lng : ℝ) (p : Pedido)
    (hp : st pid = some p)
    (h1 : ¬(V3.distanciaGrados lat lng p.ubicacionVenta.lat p.ubicacionVenta.lng ≤ V3.MARGEN_ERROR ∧
      p.estado = "en proceso"))
    (h2 : ¬(V3.distanciaGrados lat lng p.ubicacionEntrega.lat p.ubicacionEntrega.lng ≤ V3.MARGEN_ERROR ∧
      p.estado = "en camino")) :
    V3.verificarUbicacion st pid lat lng =
      (st, VUResp.ok p.estado
        (V3.distanciaGrados lat lng p.ubicacionVenta.lat p.ubicacionVenta.lng)
        (V3.distanciaGrados lat lng p.ubicacionEntrega.lat p.ubicacionEntrega.lng)) := by
  unfold V3.verificarUbicacion
  rw [hp]
  simp only [if_neg h1, if_neg h2]

theorem distanciaGrados_self (lat lng : ℝ) : V3.distanciaGrados lat lng lat lng = 0 := by
  unfold V3.distanciaGrados
  simp

/-- C1: the order state should only ever move forward along Available ->
Assigned -> InTransit -> Delivered with Delivered terminal; this fails on the
code: actualizar-estado on a pedido in estado 'entregado' happily sets it
back to 'disponible'. -/
theorem C1_counterexample :
    (stDelivered "p1").map Pedido.estado = some "entregado" ∧
    (V3.actualizarEstado stDelivered "p1" "disponible").2 = true ∧
    ((V3.actualizarEstado stDelivered "p1" "disponible").1 "p1").map Pedido.estado =
      some "disponible" :=
  ⟨rfl, rfl, rfl⟩

/-- C2: reportLocation should move an Assigned order to InTransit when the
courier is within 30 m of the pickup; this fails on the code: a pedido in
estado 'asignado' standing exactly at the pickup point (distance 0) is left
in 'asignado' because the transition branch tests for 'en proceso'. -/
theorem C2_counterexample :
    V3.distanciaGrados 10 20 10 20 = 0 ∧
    (stAsignado "p2").map Pedido.estado = some "asignado" ∧
    ((V3.verificarUbicacion stAsignado "p2" 10 20).1 "p2").map Pedido.estado =
      some "asignado" := by
  refine ⟨distanciaGrados_self 10 20, rfl, ?_⟩
  have hp : stAsignado "p2" = some pedAsignado := rfl
  rw [verificarUbicacion_sinCambio stAsignado "p2" 10 20 pedAsignado hp
    (fun h => absurd h.2 (by decide)) (fun h => absurd h.2 (by decide))]
  rfl

/-- C4: claim on a non-Available order should fail with InvalidTransition and
leave the order unchanged; this fails on the code: asignar on a pedido in
estado 'entregado' reports success and rewrites both estado and mensajeroId. -/
theorem C4_counterexample :
    (V3.asignar stDelivered "p1" "m9").2 = true ∧
    ((V3.asignar stDelivered "p1" "m9").1 "p1").map Pedido.estado = some "asignado" ∧
    ((V3.asignar stDelivered "p1" "m9").1 "p1").map Pedido.mensajeroId = some (some "m9") :=
  ⟨rfl, rfl, rfl⟩

/-- C5: createOrder with a pre-existing id should fail with DuplicateId and
leave the stored order unchanged; this fails on the in-memory revision, where
the handler overwrites the existing pedido with the new body and answers 201. -/
theorem C5_counterexample :
    (stDelivered "p1").map Pedido.productos = some "prods" ∧
    ((V1.crearPedido stDelivered pedBodyNuevo).1 "p1").map Pedido.productos =
      some "new-prods" ∧
    (V1.crearPedido stDelivered pedBodyNuevo).2 = "p1" :=
  ⟨rfl, rfl, rfl⟩

/-- C6: the transition to Delivered should be applied independently of the
archival step; this fails on the code: when the Supabase archival insert
fails, entregado answers 500 and the pedido stays in 'en camino'. -/
theorem C6_counterexample :
    (V3.entregado stEnCamino "p6" false).1 = stEnCamino ∧
    ((V3.entregado stEnCamino "p6" false).1 "p6").map Pedido.estado = some "en camino" ∧
    (V3.entregado stEnCamino "p6" false).2 = V3.EntregadoResp.archivalError :=
  ⟨rfl, rfl, rfl⟩

/-- C7: two concurrent claims on the same Available order should result in
exactly one success; this fails on the code: in the sequential interleaving
of two asignar calls both report success, and the courier of the first is
silently overwritten by the second. -/
theorem C7_counterexample :
    (V3.asignar stDisponible "p7" "m1").2 = true ∧
    (V3.asignar (V3.asignar stDisponible "p7" "m1").1 "p7" "m2").2 = true ∧
    ((V3.asignar (V3.asignar stDisponible "p7" "m1").1 "p7" "m2").1 "p7").map
      (fun q => (q.estado, q.mensajeroId)) = some ("asignado", some "m2") :=
  ⟨rfl, rfl, rfl⟩

/-- C1: amended - the lifecycle endpoints do not enforce forward-only
transitions: actualizar-estado sets any estado from estadosPermitidos
regardless of the current one (so reversals and changes after 'entregado' are
reachable), and V2's entregado updates unconditionally; only the automatic
transitions of verificar-ubicacion are forward-only ('en proceso' ->
'en camino' -> 'entregado'). -/
theorem C1_amended :
    (∀ (st : Store) (pid : String) (lat lng : ℝ) (p q : Pedido),
      st pid = some p → (V3.verificarUbicacion st pid lat lng).1 pid = some q →
      q.estado = p.estado ∨ (p.estado = "en proceso" ∧ q.estado = "en camino") ∨
        (p.estado = "en camino" ∧ q.estado = "entregado")) ∧
    (∀ (st : Store) (pid e : String) (p : Pedido), e ∈ V3.estadosPermitidos →
      st pid = some p →
      (V3.actualizarEstado st pid e).2 = true ∧
      ((V3.actualizarEstado st pid e).1 pid).map Pedido.estado = some e) ∧
    (∀ (st : Store) (pid : String) (p : Pedido), st pid = some p →
      ((V2.entregado st pid).1 pid).map Pedido.estado = some "entregado") := by
  refine ⟨?_, ?_, ?_⟩
  · intro st pid lat lng p q hp hq
    by_cases h1 : V3.distanciaGrados lat lng p.ubicacionVenta.lat p.ubicacionVenta.lng ≤
        V3.MARGEN_ERROR ∧ p.estado = "en proceso"
    · rw [verificarUbicacion_venta st pid lat lng p hp h1] at hq
      simp at hq
      subst hq
      exact Or.inr (Or.inl ⟨h1.2, rfl⟩)
    · by_cases h2 : V3.distanciaGrados lat lng p.ubicacionEntrega.lat p.ubicacionEntrega.lng ≤
          V3.MARGEN_ERROR ∧ p.estado = "en camino"
      · rw [verificarUbicacion_entrega st pid lat lng p hp h1 h2] at hq
        simp at hq
        subst hq
        exact Or.inr (Or.inr ⟨h2.2, rfl⟩)
      · rw [verificarUbicacion_sinCambio st pid lat lng p hp h1 h2] at hq
        simp [hp] at hq
        subst hq
        exact Or.inl rfl
  · intro st pid e p he hp
    unfold V3.actualizarEstado
    rw [if_pos he]
    exact ⟨rfl, by simp [hp]⟩
  · intro st pid p hp
    unfold V2.entregado
    simp [hp]

/-- C1: witness - the amended statement instantiated on concrete stores, with
each hypothesis discharged by computation. -/
theorem C1_amended_witness :
    ("disponible" ∈ V3.estadosPermitidos ∧ stDelivered "p1" = some pedDelivered ∧
      ((V3.actualizarEstado stDelivered "p1" "disponible").1 "p1").map Pedido.estado =
        some "disponible") ∧
    (stDisponible "p7" = some pedDisponible ∧
      ((V2.entregado stDisponible "p7").1 "p7").map Pedido.estado = some "entregado") :=
  ⟨⟨by decide, rfl,
    (C1_amended.2.1 stDelivered "p1" "disponible" pedDelivered (by decide) rfl).2⟩,
   ⟨rfl, C1_amended.2.2 stDisponible "p7" pedDisponible rfl⟩⟩

/-- C2: amended - in the revision that auto-transitions (part_002 third
section), verificar-ubicacion moves 'en proceso' (not 'asignado') to
'en camino' when the planar degree distance to the pickup is at most
MARGEN_ERROR = 0.00027 degrees (about 30 m), moves 'en camino' to 'entregado'
when the degree distance to the dropoff is at most the margin, and leaves the
store untouched whenever both degree distances exceed the margin, answering
the (possibly updated) estado and both degree distances; the backend-server.js
revision computes haversine distances but never transitions at all. -/
theorem C2_amended :
    (∀ (st : Store) (pid : String) (lat lng : ℝ) (p : Pedido), st pid = some p →
      (p.estado = "en proceso" →
        V3.distanciaGrados lat lng p.ubicacionVenta.lat p.ubicacionVenta.lng ≤
          V3.MARGEN_ERROR →
        (V3.verificarUbicacion st pid lat lng).1 pid = some { p with estado := "en camino" } ∧
        (V3.verificarUbicacion st pid lat lng).2 = VUResp.ok "en camino"
          (V3.distanciaGrados lat lng p.ubicacionVenta.lat p.ubicacionVenta.lng)
          (V3.distanciaGrados lat lng p.ubicacionEntrega.lat p.ubicacionEntrega.lng)) ∧
      (p.estado = "en camino" →
        V3.distanciaGrados lat lng p.ubicacionEntrega.lat p.ubicacionEntrega.lng ≤
          V3.MARGEN_ERROR →
        (V3.verificarUbicacion st pid lat lng).1 pid = some { p with estado := "entregado" } ∧
        (V3.verificarUbicacion st pid lat lng).2 = VUResp.ok "entregado"
          (V3.distanciaGrados lat lng p.ubicacionVenta.lat p.ubicacionVenta.lng)
          (V3.distanciaGrados lat lng p.ubicacionEntrega.lat p.ubicacionEntrega.lng)) ∧
      (V3.MARGEN_ERROR < V3.distanciaGrados lat lng p.ubicacionVenta.lat p.ubicacionVenta.lng →
        V3.MARGEN_ERROR < V3.distanciaGrados lat lng p.ubicacionEntrega.lat p.ubicacionEntrega.lng →
        (V3.verificarUbicacion st pid lat lng).1 = st ∧
        (V3.verificarUbicacion st pid lat lng).2 = VUResp.ok p.estado
          (V3.distanciaGrados lat lng p.ubicacionVenta.lat p.ubicacionVenta.lng)
          (V3.distanciaGrados lat lng p.ubicacionEntrega.lat p.ubicacionEntrega.lng))) ∧
    (∀ (st : SBStore) (pid : String) (lat lng : ℝ),
      (SB.verificarUbicacion st pid lat lng).1 = st) := by
  refine ⟨?_, ?_⟩
  · intro st pid lat lng p hp
    refine ⟨?_, ?_, ?_⟩
    · intro he hd
      rw [verificarUbicacion_venta st pid lat lng p hp ⟨hd, he⟩]
      exact ⟨by simp, rfl⟩
    · intro he hd
      have h1 : ¬(V3.distanciaGrados lat lng p.ubicacionVenta.lat p.ubicacionVenta.lng ≤
          V3.MARGEN_ERROR ∧ p.estado = "en proceso") :=
        fun h => absurd (he ▸ h.2) (by decide)
      rw [verificarUbicacion_entrega st pid lat lng p hp h1 ⟨hd, he⟩]
      exact ⟨by simp, rfl⟩
    · intro hv hent
      rw [verificarUbicacion_sinCambio st pid lat lng p hp
        (fun h => absurd h.1 (not_le.mpr hv)) (fun h => absurd h.1 (not_le.mpr hent))]
      exact ⟨rfl, rfl⟩
  · intro st pid lat lng
    unfold SB.verificarUbicacion
    split <;> rfl

/-- C2: witness - the amended statement at a pedido in estado 'en proceso'
whose courier stands exactly on the pickup point. -/
theorem C2_amended_witness :
    stEnProceso "p3" = some pedEnProceso ∧ pedEnProceso.estado = "en proceso" ∧
    V3.distanciaGrados 10 20 pedEnProceso.ubicacionVenta.lat pedEnProceso.ubicacionVenta.lng ≤
      V3.MARGEN_ERROR ∧
    (V3.verificarUbicacion stEnProceso "p3" 10 20).1 "p3" =
      some { pedEnProceso with estado := "en camino" } := by
  have hd : V3.distanciaGrados 10 20 pedEnProceso.ubicacionVenta.lat
      pedEnProceso.ubicacionVenta.lng ≤ V3.MARGEN_ERROR := by
    show V3.distanciaGrados 10 20 10 20 ≤ V3.MARGEN_ERROR
    rw [distanciaGrados_self]
    unfold V3.MARGEN_ERROR
    norm_num
  exact ⟨rfl, rfl, hd, ((C2_amended.1 stEnProceso "p3" 10 20 pedEnProceso rfl).1 rfl hd).1⟩

/-- C4: amended - asignar never fails with InvalidTransition: it reports
success unconditionally and rewrites estado and the courier reference of
whatever order carries the requested id, whatever its current state
('asignado' plus mensajeroId in the SQLite revision, 'en proceso' plus the
three mensajero columns in the Supabase revision). -/
theorem C4_amended :
    (∀ (st : Store) (pid mid : String), (V3.asignar st pid mid).2 = true) ∧
    (∀ (st : Store) (pid mid : String) (p : Pedido), st pid = some p →
      (V3.asignar st pid mid).1 pid =
        some { p with estado := "asignado", mensajeroId := some mid }) ∧
    (∀ (st : SBStore) (pid mid mn mt : String) (p : SBPedido), st pid = some p →
      (SB.asignar st pid mid mn mt).1 pid =
        some { p with estado := "en proceso", mensajero_id := some mid,
                      mensajero_nombre := some mn, mensajero_telefono := some mt }) := by
  refine ⟨fun st pid mid => rfl, ?_, ?_⟩
  · intro st pid mid p hp
    unfold V3.asignar
    simp [hp]
  · intro st pid mid mn mt p hp
    unfold SB.asignar
    rw [hp]
    simp

/-- C4: witness - the amended statement at a pedido already in estado
'entregado'. -/
theorem C4_amended_witness :
    stDelivered "p1" = some pedDelivered ∧
    (V3.asignar stDelivered "p1" "m9").1 "p1" =
      some { pedDelivered with estado := "asignado", mensajeroId := some "m9" } :=
  ⟨rfl, C4_amended.2.1 stDelivered "p1" "m9" pedDelivered rfl⟩

/-- C5: amended - the in-memory revision stores the body under its id
unconditionally (overwriting any existing pedido); the SQLite revision
rejects a duplicate id (primary-key violation, table unchanged) and stores a
fresh body with estado 'en proceso' (that revision's available state),
mensajeroId unset, leaving all other rows untouched. -/
theorem C5_amended :
    (∀ (st : Store) (p : Pedido), (V1.crearPedido st p).1 p.id = some p) ∧
    (∀ (st : Store) (p : Pedido) (now : Nat), (st p.id).isSome = true →
      V2.crearPedido st p now = (st, false)) ∧
    (∀ (st : Store) (p : Pedido) (now : Nat), st p.id = none →
      (V2.crearPedido st p now).2 = true ∧
      (V2.crearPedido st p now).1 p.id =
        some { p with estado := "en proceso", mensajeroId := none,
                      geometria_ruta := none, created_at := now } ∧
      ∀ j, j ≠ p.id → (V2.crearPedido st p now).1 j = st j) := by
  refine ⟨?_, ?_, ?_⟩
  · intro st p
    unfold V1.crearPedido
    simp
  · intro st p now h
    unfold V2.crearPedido
    rw [if_pos h]
  · intro st p now h
    have hns : ¬((st p.id).isSome = true) := by simp [h]
    unfold V2.crearPedido
    rw [if_neg hns]
    refine ⟨rfl, by simp, fun j hj => ?_⟩
    simp [hj]

/-- C5: witness - the amended statement at a duplicate insert over an
existing pedido and at a fresh insert into the empty store. -/
theorem C5_amended_witness :
    ((stDelivered pedBodyNuevo.id).isSome = true ∧
      V2.crearPedido stDelivered pedBodyNuevo 7 = (stDelivered, false)) ∧
    ((fun _ => none : Store) pedBodyFresco.id = none ∧
      ((V2.crearPedido (fun _ => none) pedBodyFresco 7).1 pedBodyFresco.id).map
        Pedido.estado = some "en proceso") := by
  refine ⟨⟨rfl, C5_amended.2.1 stDelivered pedBodyNuevo 7 rfl⟩, ⟨rfl, ?_⟩⟩
  rw [(C5_amended.2.2 (fun _ => none) pedBodyFresco 7 rfl).2.1]
  rfl

/-- C6: amended - markDelivered in the archiving revision is not independent
of the archival step: it performs the Supabase insert first, and a failing
insert aborts the request (500) with the estado left untouched; only a
successful archival is followed by the update to 'entregado'. -/
theorem C6_amended :
    (∀ (st : Store) (pid : String) (b : Bool), st pid = none →
      V3.entregado st pid b = (st, V3.EntregadoResp.notFound)) ∧
    (∀ (st : Store) (pid : String) (p : Pedido), st pid = some p →
      V3.entregado st pid false = (st, V3.EntregadoResp.archivalError) ∧
      ((V3.entregado st pid true).1 pid).map Pedido.estado = some "entregado" ∧
      (V3.entregado st pid true).2 = V3.EntregadoResp.ok) := by
  refine ⟨?_, ?_⟩
  · intro st pid b h
    unfold V3.entregado
    rw [h]
  · intro st pid p hp
    refine ⟨?_, ?_, ?_⟩
    · unfold V3.entregado
      rw [hp]
      rfl
    · unfold V3.entregado
      rw [hp]
      simp [hp]
    · unfold V3.entregado
      rw [hp]
      rfl

/-- C6: witness - the amended statement at a pedido in 'en camino', with the
archival step failing and succeeding. -/
theorem C6_amended_witness :
    stEnCamino "p6" = some pedEnCamino ∧
    V3.entregado stEnCamino "p6" false = (stEnCamino, V3.EntregadoResp.archivalError) ∧
    ((V3.entregado stEnCamino "p6" true).1 "p6").map Pedido.estado = some "entregado" :=
  ⟨rfl, (C6_amended.2 stEnCamino "p6" pedEnCamino rfl).1,
    (C6_amended.2 stEnCamino "p6" pedEnCamino rfl).2.1⟩

/-- C7: amended - there is no per-order mutual exclusion and no state check:
each claim is one unconditional UPDATE, so in either sequential interleaving
of two claims on the same Available order both report success and the order
ends in 'asignado' carrying the courier of the second (last) writer. -/
theorem C7_amended :
    ∀ (st : Store) (pid m1 m2 : String) (p : Pedido), st pid = some p →
      (V3.asignar st pid m1).2 = true ∧
      (V3.asignar (V3.asignar st pid m1).1 pid m2).2 = true ∧
      (V3.asignar (V3.asignar st pid m1).1 pid m2).1 pid =
        some { p with estado := "asignado", mensajeroId := some m2 } := by
  intro st pid m1 m2 p hp
  refine ⟨rfl, rfl, ?_⟩
  unfold V3.asignar
  simp [hp]

/-- C7: witness - the amended statement at an available pedido claimed by
couriers m1 and then m2. -/
theorem C7_amended_witness :
    stDisponible "p7" = some pedDisponible ∧
    (V3.asignar (V3.asignar stDisponible "p7" "m1").1 "p7" "m2").1 "p7" =
      some { pedDisponible with estado := "asignado", mensajeroId := some "m2" } :=
  ⟨rfl, (C7_amended stDisponible "p7" "m1" "m2" pedDisponible rfl).2.2⟩

/-- C9: amended - a freshly created pedido is 'disponible' with mensajeroId
unset, and asignar sets the courier while moving the estado to 'asignado';
but actualizar-estado changes the estado without touching mensajeroId, so the
equivalence "courierId unset iff Available" fails on reachable states. -/
theorem C9_amended :
    (∀ (st : Store) (p : Pedido) (now : Nat), st p.id = none →
      ((V3.crearPedido st p now).1 p.id).map (fun q => (q.estado, q.mensajeroId)) =
        some ("disponible", none)) ∧
    (∀ (st : Store) (pid mid : String) (p : Pedido), st pid = some p →
      ((V3.asignar st pid mid).1 pid).map (fun q => (q.estado, q.mensajeroId)) =
        some ("asignado", some mid)) ∧
    (∀ (st : Store) (pid e : String) (p : Pedido), st pid = some p →
      e ∈ V3.estadosPermitidos →
      ((V3.actualizarEstado st pid e).1 pid).map Pedido.mensajeroId =
        some p.mensajeroId) := by
  refine ⟨?_, ?_, ?_⟩
  · intro st p now h
    unfold V3.crearPedido
    rw [if_neg (by simp [h])]
    simp
  · intro st pid mid p hp
    unfold V3.asignar
    simp [hp]
  · intro st pid e p hp he
    unfold V3.actualizarEstado
    rw [if_pos he]
    simp [hp]

/-- C9: witness - the amended statement at a fresh creation, a claim, and an
actualizar-estado call. -/
theorem C9_amended_witness :
    ((fun _ => none : Store) pedBodyFresco.id = none ∧
      ((V3.crearPedido (fun _ => none) pedBodyFresco 0).1 pedBodyFresco.id).map
        (fun q => (q.estado, q.mensajeroId)) = some ("disponible", none)) ∧
    (stAsignado "p2" = some pedAsignado ∧ "en camino" ∈ V3.estadosPermitidos ∧
      ((V3.actualizarEstado stAsignado "p2" "en camino").1 "p2").map Pedido.mensajeroId =
        some (some "m1")) :=
  ⟨⟨rfl, C9_amended.1 (fun _ => none) pedBodyFresco 0 rfl⟩,
   ⟨rfl, by decide, C9_amended.2.2 stAsignado "p2" "en camino" pedAsignado rfl (by decide)⟩⟩

/-- C10: every lifecycle transition (asignar, actualizar-estado, entregado,
verificar-ubicacion's automatic branch, en-camino) changes only the estado
and courier columns of the targeted row: id, productos, the two locations,
distanciaCarreteraKm, precioDelivery and created_at keep their previous
values. -/
theorem C10_frame :
    (∀ (st : Store) (pid mid : String) (p q : Pedido), st pid = some p →
      (V3.asignar st pid mid).1 pid = some q → framePedido p q) ∧
    (∀ (st : Store) (pid e : String) (p q : Pedido), st pid = some p →
      (V3.actualizarEstado st pid e).1 pid = some q → framePedido p q) ∧
    (∀ (st : Store) (pid : String) (b : Bool) (p q : Pedido), st pid = some p →
      (V3.entregado st pid b).1 pid = some q → framePedido p q) ∧
    (∀ (st : Store) (pid : String) (lat lng : ℝ) (p q : Pedido), st pid = some p →
      (V3.verificarUbicacion st pid lat lng).1 pid = some q → framePedido p q) ∧
    (∀ (st : SBStore) (pid : String) (p q : SBPedido), st pid = some p →
      (SB.enCamino st pid).1 pid = some q → frameSBPedido p q) ∧
    (∀ (st : SBStore) (pid mid mn mt : String) (p q : SBPedido), st pid = some p →
      (SB.asignar st pid mid mn mt).1 pid = some q → frameSBPedido p q) ∧
    (∀ (st : SBStore) (pid : String) (p q : SBPedido), st pid = some p →
      (SB.entregado st pid).1 pid = some q → frameSBPedido p q) := by
  refine ⟨?_, ?_, ?_, ?_, ?_, ?_, ?_⟩
  · intro st pid mid p q hp hq
    simp [V3.asignar, hp] at hq
    subst hq
    exact ⟨rfl, rfl, rfl, rfl, rfl, rfl, rfl⟩
  · intro st pid e p q hp hq
    unfold V3.actualizarEstado at hq
    by_cases he : e ∈ V3.estadosPermitidos
    · rw [if_pos he] at hq
      simp [hp] at hq
      subst hq
      exact ⟨rfl, rfl, rfl, rfl, rfl, rfl, rfl⟩
    · rw [if_neg he] at hq
      simp [hp] at hq
      subst hq
      exact ⟨rfl, rfl, rfl, rfl, rfl, rfl, rfl⟩
  · intro st pid b p q hp hq
    unfold V3.entregado at hq
    rw [hp] at hq
    cases b
    · simp [hp] at hq
      subst hq
      exact ⟨rfl, rfl, rfl, rfl, rfl, rfl, rfl⟩
    · simp [hp] at hq
      subst hq
      exact ⟨rfl, rfl, rfl, rfl, rfl, rfl, rfl⟩
  · intro st pid lat lng p q hp hq
    by_cases h1 : V3.distanciaGrados lat lng p.ubicacionVenta.lat p.ubicacionVenta.lng ≤
        V3.MARGEN_ERROR ∧ p.estado = "en proceso"
    · rw [verificarUbicacion_venta st pid lat lng p hp h1] at hq
      simp at hq
      subst hq
      exact ⟨rfl, rfl, rfl, rfl, rfl, rfl, rfl⟩
    · by_cases h2 : V3.distanciaGrados lat lng p.ubicacionEntrega.lat p.ubicacionEntrega.lng ≤
          V3.MARGEN_ERROR ∧ p.estado = "en camino"
      · rw [verificarUbicacion_entrega st pid lat lng p hp h1 h2] at hq
        simp at hq
        subst hq
        exact ⟨rfl, rfl, rfl, rfl, rfl, rfl, rfl⟩
      · rw [verificarUbicacion_sinCambio st pid lat lng p hp h1 h2] at hq
        simp [hp] at hq
        subst hq
        exact ⟨rfl, rfl, rfl, rfl, rfl, rfl, rfl⟩
  · intro st pid p q hp hq
    simp [SB.enCamino, hp] at hq
    subst hq
    exact ⟨rfl, rfl, rfl, rfl, rfl, rfl, rfl⟩
  · intro st pid mid mn mt p q hp hq
    unfold SB.asignar at hq
    rw [hp] at hq
    simp at hq
    subst hq
    exact ⟨rfl, rfl, rfl, rfl, rfl, rfl, rfl⟩
  · intro st pid p q hp hq
    unfold SB.entregado at hq
    rw [hp] at hq
    simp [hp] at hq
    subst hq
    exact ⟨rfl, rfl, rfl, rfl, rfl, rfl, rfl⟩

/-- C10: witness - the frame statement instantiated on concrete rows, every
hypothesis discharged by computation. -/
theorem C10_frame_witness :
    (stDelivered "p1" = some pedDelivered ∧
      (V3.asignar stDelivered "p1" "m9").1 "p1" =
        some { pedDelivered with estado := "asignado", mensajeroId := some "m9" } ∧
      framePedido pedDelivered
        { pedDelivered with estado := "asignado", mensajeroId := some "m9" }) ∧
    (sbSt "q1" = some sbPed ∧
      (SB.enCamino sbSt "q1").1 "q1" = some { sbPed with estado := "en camino" } ∧
      frameSBPedido sbPed { sbPed with estado := "en camino" }) :=
  ⟨⟨rfl, rfl, C10_frame.1 stDelivered "p1" "m9" pedDelivered
      { pedDelivered with estado := "asignado", mensajeroId := some "m9" } rfl rfl⟩,
   ⟨rfl, rfl, C10_frame.2.2.2.2.1 sbSt "q1" sbPed { sbPed with estado := "en camino" } rfl rfl⟩⟩

/-- C9: courierId should be unset exactly when the order is Available; this
fails on the code: create, then asignar, then actualizar-estado back to
'disponible' yields a reachable pedido in estado 'disponible' whose
mensajeroId is still set. -/
theorem C9_counterexample :
    ((V3.actualizarEstado
        (V3.asignar (V3.crearPedido (fun _ => none) pedBodyFresco 0).1 "p9" "m1").1
        "p9" "disponible").1 "p9").map (fun q => (q.estado, q.mensajeroId)) =
      some ("disponible", some "m1") :=
  rfl

theorem haversineA_symm (lat1 lon1 lat2 lon2 : ℝ) :
    SB.haversineA lat1 lon1 lat2 lon2 = SB.haversineA lat2 lon2 lat1 lon1 := by
  unfold SB.haversineA
  rw [show (lat1 - lat2) * Real.pi / 180 / 2 = -((lat2 - lat1) * Real.pi / 180 / 2) by ring,
      show (lon1 - lon2) * Real.pi / 180 / 2 = -((lon2 - lon1) * Real.pi / 180 / 2) by ring,
      Real.sin_neg, Real.sin_neg]
  ring

theorem calcularDistancia_symm (lat1 lon1 lat2 lon2 : ℝ) :
    SB.calcularDistancia lat1 lon1 lat2 lon2 = SB.calcularDistancia lat2 lon2 lat1 lon1 := by
  unfold SB.calcularDistancia
  rw [haversineA_symm lat1 lon1 lat2 lon2]

theorem haversineA_self (lat lon : ℝ) : SB.haversineA lat lon lat lon = 0 := by
  unfold SB.haversineA
  simp [sub_self]

theorem calcularDistancia_self (lat lon : ℝ) : SB.calcularDistancia lat lon lat lon = 0 := by
  unfold SB.calcularDistancia
  rw [haversineA_self]
  simp [SB.atan2, zero_lt_one]

/-- C8: the haversine function calcularDistancia used for the arrival check
is symmetric in its two points (here an exact real-number identity, hence in
particular within any floating-point tolerance) and vanishes on equal
points. -/
theorem C8_distancia :
    (∀ lat1 lon1 lat2 lon2 : ℝ,
      SB.calcularDistancia lat1 lon1 lat2 lon2 = SB.calcularDistancia lat2 lon2 lat1 lon1) ∧
    (∀ lat lon : ℝ, SB.calcularDistancia lat lon lat lon = 0) :=
  ⟨calcularDistancia_symm, calcularDistancia_self⟩

theorem distanciaGrados_eval : V3.distanciaGrados 0 0 90 0 = 90 := by
  unfold V3.distanciaGrados
  rw [show ((0:ℝ) - 90) ^ 2 + ((0:ℝ) - 0) ^ 2 = 90 ^ 2 by norm_num]
  exact Real.sqrt_sq (by norm_num)

theorem haversineA_eval : SB.haversineA 0 0 90 0 = 1 / 2 := by
  unfold SB.haversineA
  rw [show ((90:ℝ) - 0) * Real.pi / 180 / 2 = Real.pi / 4 by ring,
      show ((0:ℝ) - 0) * Real.pi / 180 / 2 = 0 by ring,
      show (0:ℝ) * Real.pi / 180 = 0 by ring,
      show (90:ℝ) * Real.pi / 180 = Real.pi / 2 by ring,
      Real.sin_pi_div_four, Real.cos_pi_div_two, Real.sin_zero, Real.cos_zero]
  rw [div_mul_div_comm, Real.mul_self_sqrt (by norm_num : (0:ℝ) ≤ 2)]
  norm_num

theorem calcularDistancia_eval : SB.calcularDistancia 0 0 90 0 = 6371000 * (Real.pi / 2) := by
  unfold SB.calcularDistancia
  rw [haversineA_eval, show (1:ℝ) - 1 / 2 = 1 / 2 by norm_num]
  unfold SB.atan2
  rw [if_pos (Real.sqrt_pos.mpr (by norm_num : (0:ℝ) < 1 / 2)),
      div_self (ne_of_gt (Real.sqrt_pos.mpr (by norm_num : (0:ℝ) < 1 / 2))),
      Real.arctan_one]
  ring

/-- C3: the distance the arrival decision actually uses is NOT the haversine
great-circle distance: the deciding revision compares the planar Pythagorean
distance on raw degrees against a degree threshold, and at the points
(0,0) and (90,0) the two formulas give 90 (degrees) versus
6371000 * pi / 2 (meters), which differ. -/
theorem C3_planar_vs_haversine :
    V3.distanciaGrados 0 0 90 0 = 90 ∧
    SB.calcularDistancia 0 0 90 0 = 6371000 * (Real.pi / 2) ∧
    V3.distanciaGrados 0 0 90 0 ≠ SB.calcularDistancia 0 0 90 0 := by
  refine ⟨distanciaGrados_eval, calcularDistancia_eval, ?_⟩
  rw [distanciaGrados_eval, calcularDistancia_eval]
  have h := Real.pi_gt_three
  have hlt : (90:ℝ) < 6371000 * (Real.pi / 2) := by nlinarith
  exact ne_of_lt hlt
